import Mathlib

/-!
Verification of the offiaccount credential lifecycle and request layer.

This file gives a shallow embedding of the Go package source (client.go /
access_token.go): `responseFilter`, `applyAccessToken`, `HTTPGet`, `HTTPPost`,
`GetAccessToken`, `NoticeRefreshAccessToken`, and a sequentially consistent
interleaving model of concurrent `GetAccessToken` calls around the global
`refreshAccessTokenLock` mutex.

Modelling conventions:
- Network and cache effects are supplied by an environment record holding the
  result of the i-th call to each collaborator; the embedded functions return
  their Go result pair together with a trace of the external events they
  perform, in order.
- `json.Unmarshal` of a response body into the `{errcode, errmsg}` envelope is
  modelled by the `bodyEnvelope` field of `HTTPResponse` (`none` = unmarshal
  failure); reading the body with `ioutil.ReadAll` is modelled as already
  completed into the `body` field.
- Go scoping matters in the retry blocks of `HTTPGet`/`HTTPPost`: the line
  `_, err := client.Ctx.AccessToken.GetRefreshAccessTokenHandler(client.Ctx)`
  declares a fresh `err` local to the `if` block, shadowing the named result
  `err`.  The naked `return` statements that follow therefore return the outer
  named results `(resp, err)` — at that point the first response body and the
  `NeedRefreshAccessTokenError` sentinel — not the inner error.  The embedding
  reproduces exactly that semantics.
- In `GetAccessToken` the line `accessToken, expiresIn, err := ...` sits in the
  function body scope, where the named results live, so there `:=` reuses
  `accessToken` and `err` and no shadowing occurs.
-/

/-- Go sentinel / error values produced by the embedded functions.
`needRefreshAccessToken` is the sentinel `NeedRefreshAccessTokenError`,
`statusError s` is `fmt.Errorf("Status %s", s)`, `unmarshalError` a
`json.Unmarshal` failure, `message m` is `errors.New(m)` or any other
collaborator error carrying message `m`. -/
inductive GoErr where
  | statusError (status : String)
  | unmarshalError
  | needRefreshAccessToken
  | message (msg : String)
deriving DecidableEq

/-- `WXServerUrl = "https://api.weixin.qq.com"`. -/
def WXServerUrl : String := "https://api.weixin.qq.com"

/-- The map `WXInvalidErrorCode = map[int64]string{40001: ..., 40014: ...}`,
as the lookup function of the Go map. -/
def WXInvalidErrorCode (errcode : Int) : Option String :=
  if errcode = 40001 then some "access_token 无效"
  else if errcode = 40014 then some "不合法的access_token"
  else none

/-- The `{errcode, errmsg}` envelope `json.Unmarshal` extracts from a body. -/
structure ErrorEnvelope where
  errcode : Int
  errmsg : String
deriving DecidableEq

/-- A completed platform HTTP response: status code, status line, body bytes,
and the result of unmarshalling the body into the error envelope
(`none` models a `json.Unmarshal` error on these bytes). -/
structure HTTPResponse where
  statusCode : Nat
  status : String
  body : String
  bodyEnvelope : Option ErrorEnvelope
deriving DecidableEq

/-- `responseFilter`: non-200 status is an error without reading the body;
then the body is returned together with: an unmarshal error, the
`NeedRefreshAccessTokenError` sentinel when `errcode` is in
`WXInvalidErrorCode`, `errors.New(string(resp))` for any other non-zero
`errcode`, or no error. -/
def responseFilter (response : HTTPResponse) : String × Option GoErr :=
  if response.statusCode ≠ 200 then
    ("", some (GoErr.statusError response.status))
  else
    match response.bodyEnvelope with
    | none => (response.body, some GoErr.unmarshalError)
    | some envelope =>
      if (WXInvalidErrorCode envelope.errcode).isSome then
        (response.body, some GoErr.needRefreshAccessToken)
      else if envelope.errcode ≠ 0 then
        (response.body, some (GoErr.message response.body))
      else
        (response.body, none)

/-- `strings.Contains(s, "?")`: the one-character substring `"?"` occurs in
`s` exactly when the character occurs among its characters. -/
def containsQuestionMark (s : String) : Bool := s.data.contains '?'

/-- `applyAccessToken`: appends `access_token` to the url, with `&` when the
url already has a `?` and with `?` otherwise.  The token comes from
`GetAccessTokenHandler`, whose result pair is passed in as `tokenResult`;
on a handler error the named result `newUrl` stays `""`. -/
def applyAccessToken (tokenResult : String × Option GoErr) (oldUrl : String) :
    String × Option GoErr :=
  match tokenResult with
  | (_, some e) => ("", some e)
  | (accessToken, none) =>
    if containsQuestionMark oldUrl then
      (oldUrl ++ "&access_token=" ++ accessToken, none)
    else
      (oldUrl ++ "?access_token=" ++ accessToken, none)

/-- External events performed by a `Client` call, in order.  A `post` event
records the bytes actually sent from the payload `io.Reader` at that point. -/
inductive ClientEvent where
  | refreshCall
  | get (url : String)
  | post (url : String) (bodySent : String) (contentType : String)
deriving DecidableEq

/-- Events that are HTTP requests to the platform (GET or POST). -/
def ClientEvent.isRequest : ClientEvent → Bool
  | ClientEvent.refreshCall => false
  | _ => true

/-- Environment of one `Client` call: result of the i-th
`GetAccessTokenHandler` call, the `GetRefreshAccessTokenHandler` result, and
the transport-level result of the i-th `http.Get`/`http.Post`. -/
structure ClientEnv where
  getTokenHandler : Nat → String × Option GoErr
  refreshHandler : String × Option GoErr
  send : Nat → Except GoErr HTTPResponse

/-- `HTTPGet`.  Note two source facts reproduced here: (1) on retry,
`applyAccessToken` is applied to the reassigned `uri`, which already carries
the first `access_token` parameter; (2) inside the retry block the naked
`return`s return the outer `(resp, err)` — the first body and the
`NeedRefreshAccessTokenError` sentinel — because `err` is shadowed there. -/
def HTTPGet (env : ClientEnv) (uri : String) :
    (String × Option GoErr) × List ClientEvent :=
  match applyAccessToken (env.getTokenHandler 0) uri with
  | (_, some e) => (("", some e), [])
  | (uri1, none) =>
    match env.send 0 with
    | Except.error e => (("", some e), [ClientEvent.get (WXServerUrl ++ uri1)])
    | Except.ok response =>
      let filtered := responseFilter response
      if filtered.2 = some GoErr.needRefreshAccessToken then
        match env.refreshHandler with
        | (_, some _) =>
          ((filtered.1, some GoErr.needRefreshAccessToken),
            [ClientEvent.get (WXServerUrl ++ uri1), ClientEvent.refreshCall])
        | (_, none) =>
          match applyAccessToken (env.getTokenHandler 1) uri1 with
          | (_, some _) =>
            ((filtered.1, some GoErr.needRefreshAccessToken),
              [ClientEvent.get (WXServerUrl ++ uri1), ClientEvent.refreshCall])
          | (uri2, none) =>
            match env.send 1 with
            | Except.error _ =>
              ((filtered.1, some GoErr.needRefreshAccessToken),
                [ClientEvent.get (WXServerUrl ++ uri1), ClientEvent.refreshCall])
            | Except.ok response2 =>
              (responseFilter response2,
                [ClientEvent.get (WXServerUrl ++ uri1), ClientEvent.refreshCall,
                  ClientEvent.get (WXServerUrl ++ uri2)])
      else
        ((filtered.1, filtered.2), [ClientEvent.get (WXServerUrl ++ uri1)])

/-- `HTTPPost`.  `payload` is the full content of the `io.Reader` argument.
The first successful `http.Post` reads the reader to its end, so it sends
`payload`; the retry passes the very same reader object, now exhausted, so the
bytes sent by the second `http.Post` are `""`.  The `uri` reassignment and the
`err` shadowing are as in `HTTPGet`. -/
def HTTPPost (env : ClientEnv) (uri : String) (payload : String)
    (contentType : String) : (String × Option GoErr) × List ClientEvent :=
  match applyAccessToken (env.getTokenHandler 0) uri with
  | (_, some e) => (("", some e), [])
  | (uri1, none) =>
    match env.send 0 with
    | Except.error e =>
      (("", some e), [ClientEvent.post (WXServerUrl ++ uri1) payload contentType])
    | Except.ok response =>
      let filtered := responseFilter response
      if filtered.2 = some GoErr.needRefreshAccessToken then
        match env.refreshHandler with
        | (_, some _) =>
          ((filtered.1, some GoErr.needRefreshAccessToken),
            [ClientEvent.post (WXServerUrl ++ uri1) payload contentType,
              ClientEvent.refreshCall])
        | (_, none) =>
          match applyAccessToken (env.getTokenHandler 1) uri1 with
          | (_, some _) =>
            ((filtered.1, some GoErr.needRefreshAccessToken),
              [ClientEvent.post (WXServerUrl ++ uri1) payload contentType,
                ClientEvent.refreshCall])
          | (uri2, none) =>
            match env.send 1 with
            | Except.error _ =>
              ((filtered.1, some GoErr.needRefreshAccessToken),
                [ClientEvent.post (WXServerUrl ++ uri1) payload contentType,
                  ClientEvent.refreshCall])
            | Except.ok response2 =>
              (responseFilter response2,
                [ClientEvent.post (WXServerUrl ++ uri1) payload contentType,
                  ClientEvent.refreshCall,
                  ClientEvent.post (WXServerUrl ++ uri2) "" contentType])
      else
        ((filtered.1, filtered.2),
          [ClientEvent.post (WXServerUrl ++ uri1) payload contentType])

/-- External events performed by the access-token manager, in order. -/
inductive TokenEvent where
  | fetch
  | lockAcquire
  | lockRelease
  | refreshWXServer
  | save (accessToken : String) (ttlSeconds : Nat)
deriving DecidableEq

/-- Save events. -/
def TokenEvent.isSave : TokenEvent → Bool
  | TokenEvent.save _ _ => true
  | _ => false

/-- Environment of one manager call: the result of the i-th `Cache.Fetch`,
the `refreshAccessTokenFromWXServer` outcome `(accessToken, expiresIn, err)`,
and the `Cache.Save` outcome (whose value the source discards with `_ =`). -/
structure TokenEnv where
  fetch : Nat → String × Option GoErr
  refreshWXServer : String × Nat × Option GoErr
  saveResult : Option GoErr

/-- The TTL shrink `expiresIn = int(0.9 * float64(expiresIn))`.  For the
issuer's value range (0 ≤ expiresIn < 4.5e14) the IEEE-754 double computation
`0.9 * float64(e)` rounds to within far less than 1/10 of the exact product,
so Go's truncation agrees exactly with `⌊9 * e / 10⌋`, which is how the shrink
is embedded. -/
def shrinkExpiresIn (expiresIn : Nat) : Nat := 9 * expiresIn / 10

/-- `GetAccessToken`: fast-path fetch; on a miss, lock, re-fetch under the
lock, refresh from the WX server, save with the shrunk TTL (save error
discarded), unlock (deferred), return. -/
def GetAccessToken (env : TokenEnv) : (String × Option GoErr) × List TokenEvent :=
  let first := env.fetch 0
  if first.1 ≠ "" then
    ((first.1, first.2), [TokenEvent.fetch])
  else
    let second := env.fetch 1
    if second.1 ≠ "" then
      ((second.1, second.2),
        [TokenEvent.fetch, TokenEvent.lockAcquire, TokenEvent.fetch,
          TokenEvent.lockRelease])
    else
      match env.refreshWXServer with
      | (accessToken, _, some e) =>
        ((accessToken, some e),
          [TokenEvent.fetch, TokenEvent.lockAcquire, TokenEvent.fetch,
            TokenEvent.refreshWXServer, TokenEvent.lockRelease])
      | (accessToken, expiresIn, none) =>
        ((accessToken, none),
          [TokenEvent.fetch, TokenEvent.lockAcquire, TokenEvent.fetch,
            TokenEvent.refreshWXServer,
            TokenEvent.save accessToken (shrinkExpiresIn expiresIn),
            TokenEvent.lockRelease])

/-- `NoticeRefreshAccessToken`: lock, refresh from the WX server
unconditionally (no cache fetch), save with the shrunk TTL (save error
discarded), unlock (deferred), return. -/
def NoticeRefreshAccessToken (env : TokenEnv) :
    (String × Option GoErr) × List TokenEvent :=
  match env.refreshWXServer with
  | (accessToken, _, some e) =>
    ((accessToken, some e),
      [TokenEvent.lockAcquire, TokenEvent.refreshWXServer, TokenEvent.lockRelease])
  | (accessToken, expiresIn, none) =>
    ((accessToken, none),
      [TokenEvent.lockAcquire, TokenEvent.refreshWXServer,
        TokenEvent.save accessToken (shrinkExpiresIn expiresIn),
        TokenEvent.lockRelease])

/-- Environment for the C1 evaluation: the token handler yields `"OLD"`
before the refresh and `"NEW"` after it; the first platform response reports
errcode 40001; the second succeeds. -/
def envC1 : ClientEnv :=
  ClientEnv.mk
    (fun i => if i = 0 then ("OLD", none) else ("NEW", none))
    ("NEW", none)
    (fun i =>
      if i = 0 then
        Except.ok (HTTPResponse.mk 200 "200 OK" "ERRBODY1"
          (some (ErrorEnvelope.mk 40001 "invalid credential")))
      else
        Except.ok (HTTPResponse.mk 200 "200 OK" "OKBODY"
          (some (ErrorEnvelope.mk 0 ""))))

/-- Environment for the C5 evaluation: first platform response reports
errcode 40001 and the forced refresh then fails with a message error. -/
def envC5 : ClientEnv :=
  ClientEnv.mk (fun _ => ("OLD", none))
    ("", some (GoErr.message "refresh failed"))
    (fun _ =>
      Except.ok (HTTPResponse.mk 200 "200 OK" "ERRBODY1"
        (some (ErrorEnvelope.mk 40001 "invalid credential"))))

/-- First platform response used by the C2 witness: errcode 40001. -/
def respC2a : HTTPResponse :=
  HTTPResponse.mk 200 "200 OK" "E1" (some (ErrorEnvelope.mk 40001 "bad"))

/-- Second platform response used by the C2 witness: errcode 40014 again. -/
def respC2b : HTTPResponse :=
  HTTPResponse.mk 200 "200 OK" "E2" (some (ErrorEnvelope.mk 40014 "bad again"))

/-- Environment for the C2 witness: both responses credential-invalid. -/
def envC2 : ClientEnv :=
  ClientEnv.mk (fun _ => ("T1", none)) ("T2", none)
    (fun i => if i = 0 then Except.ok respC2a else Except.ok respC2b)

/-- Environment for the C9 witness. -/
def envC9 : ClientEnv :=
  ClientEnv.mk (fun _ => ("T1", none)) ("T2", none)
    (fun i =>
      if i = 0 then
        Except.ok (HTTPResponse.mk 200 "200 OK" "E1"
          (some (ErrorEnvelope.mk 40001 "bad")))
      else
        Except.ok (HTTPResponse.mk 200 "200 OK" "OK"
          (some (ErrorEnvelope.mk 0 ""))))

/-- Program counter of one thread executing `GetAccessToken`, at the
granularity of its shared-state accesses: the fast-path fetch, waiting on
`refreshAccessTokenLock`, the double-checked re-fetch under the lock, the
WX-server refresh, the cache save (with release), and completion with the
returned token. -/
inductive ThreadPc where
  | start
  | waiting
  | locked
  | refreshing
  | saving (accessToken : String)
  | done (accessToken : String)
deriving DecidableEq

/-- Shared state of `n` threads running `GetAccessToken` concurrently: the
credential cache entry for the identity, the holder of the global
`refreshAccessTokenLock`, a ghost count of `refreshAccessTokenFromWXServer`
calls, and each thread's program counter. -/
structure SysState (n : Nat) where
  cache : Option String
  lockHolder : Option (Fin n)
  refreshCount : Nat
  pc : Fin n → ThreadPc

/-- All threads about to run `GetAccessToken` against an empty cache. -/
def initState (n : Nat) : SysState n :=
  SysState.mk none none 0 (fun _ => ThreadPc.start)

/-- Sequentially consistent interleaving semantics of `GetAccessToken`: each
constructor is one atomic shared-state access of one thread, following the
source control flow — fast-path `Cache.Fetch`, `Lock`, re-fetch under the
lock, `refreshAccessTokenFromWXServer`, `Cache.Save` with the deferred
`Unlock`, and the early returns with their deferred `Unlock`.  `issuer k` is
the token minted by the k-th WX-server call; every call succeeds. -/
inductive SysStep (issuer : Nat → String) {n : Nat} :
    SysState n → SysState n → Prop where
  | fetchHit (s : SysState n) (i : Fin n) (t : String) :
      s.pc i = ThreadPc.start → s.cache = some t →
      SysStep issuer s
        (SysState.mk s.cache s.lockHolder s.refreshCount
          (Function.update s.pc i (ThreadPc.done t)))
  | fetchMiss (s : SysState n) (i : Fin n) :
      s.pc i = ThreadPc.start → s.cache = none →
      SysStep issuer s
        (SysState.mk s.cache s.lockHolder s.refreshCount
          (Function.update s.pc i ThreadPc.waiting))
  | acquire (s : SysState n) (i : Fin n) :
      s.pc i = ThreadPc.waiting → s.lockHolder = none →
      SysStep issuer s
        (SysState.mk s.cache (some i) s.refreshCount
          (Function.update s.pc i ThreadPc.locked))
  | refetchHit (s : SysState n) (i : Fin n) (t : String) :
      s.pc i = ThreadPc.locked → s.cache = some t →
      SysStep issuer s
        (SysState.mk s.cache none s.refreshCount
          (Function.update s.pc i (ThreadPc.done t)))
  | refetchMiss (s : SysState n) (i : Fin n) :
      s.pc i = ThreadPc.locked → s.cache = none →
      SysStep issuer s
        (SysState.mk s.cache s.lockHolder s.refreshCount
          (Function.update s.pc i ThreadPc.refreshing))
  | refreshWX (s : SysState n) (i : Fin n) :
      s.pc i = ThreadPc.refreshing →
      SysStep issuer s
        (SysState.mk s.cache s.lockHolder (s.refreshCount + 1)
          (Function.update s.pc i (ThreadPc.saving (issuer s.refreshCount))))
  | saveRelease (s : SysState n) (i : Fin n) (t : String) :
      s.pc i = ThreadPc.saving t →
      SysStep issuer s
        (SysState.mk (some t) none s.refreshCount
          (Function.update s.pc i (ThreadPc.done t)))

/-- Program points at which a thread holds `refreshAccessTokenLock`. -/
def holdsLock (p : ThreadPc) : Prop :=
  p = ThreadPc.locked ∨ p = ThreadPc.refreshing ∨ ∃ t, p = ThreadPc.saving t

/-- Inductive invariant of the interleaving system. -/
structure SysInv (issuer : Nat → String) {n : Nat} (s : SysState n) : Prop where
  holder_of_state : ∀ i, holdsLock (s.pc i) → s.lockHolder = some i
  cache_none_of_active : ∀ i,
    (s.pc i = ThreadPc.refreshing ∨ ∃ t, s.pc i = ThreadPc.saving t) →
    s.cache = none
  cache_val : ∀ t, s.cache = some t → t = issuer 0 ∧ s.refreshCount = 1
  saving_val : ∀ i t, s.pc i = ThreadPc.saving t →
    t = issuer 0 ∧ s.refreshCount = 1
  done_val : ∀ i t, s.pc i = ThreadPc.done t →
    t = issuer 0 ∧ s.refreshCount = 1
  count_le : s.refreshCount ≤ 1
  count_one : s.refreshCount = 1 →
    s.cache ≠ none ∨ ∃ i t, s.pc i = ThreadPc.saving t

/-- Final state of the single-thread execution used by the C3 witness. -/
def c3sFinal : SysState 1 :=
  SysState.mk (some "TOKEN") none 1
    (Function.update
      (Function.update
        (Function.update
          (Function.update
            (Function.update (fun _ : Fin 1 => ThreadPc.start) 0 ThreadPc.waiting)
            0 ThreadPc.locked)
          0 ThreadPc.refreshing)
        0 (ThreadPc.saving "TOKEN"))
      0 (ThreadPc.done "TOKEN"))

/-- C4: `responseFilter` classifies a completed response: a non-200 status
yields a transport error without the body being parsed; errcode 0 yields
success with the raw body bytes; errcode in the known invalid-credential set
(40001, 40014) yields the retryable `needRefreshAccessToken` sentinel; any
other non-zero errcode yields an application error whose message is the raw
body text. -/
theorem responseFilter_classification (r : HTTPResponse) :
    (r.statusCode ≠ 200 →
      responseFilter r = ("", some (GoErr.statusError r.status))) ∧
    (∀ envl : ErrorEnvelope, r.statusCode = 200 → r.bodyEnvelope = some envl →
      ((envl.errcode = 0 → responseFilter r = (r.body, none)) ∧
        ((envl.errcode = 40001 ∨ envl.errcode = 40014) →
          responseFilter r = (r.body, some GoErr.needRefreshAccessToken)) ∧
        (envl.errcode ≠ 0 → envl.errcode ≠ 40001 → envl.errcode ≠ 40014 →
          responseFilter r = (r.body, some (GoErr.message r.body))))) := by
  refine ⟨fun h => by simp [responseFilter, h], fun envl h200 henv => ?_⟩
  refine ⟨fun h0 => ?_, fun hinv => ?_, fun h0 h1 h4 => ?_⟩
  · simp [responseFilter, h200, henv, h0, WXInvalidErrorCode]
  · rcases hinv with h | h <;>
      simp [responseFilter, h200, henv, h, WXInvalidErrorCode]
  · simp [responseFilter, h200, henv, h0, h1, h4, WXInvalidErrorCode]

/-- Witness for C4 at a concrete response with errcode 40001. -/
theorem responseFilter_classification_witness :
    responseFilter
        (HTTPResponse.mk 200 "200 OK" "RAWBODY"
          (some (ErrorEnvelope.mk 40001 "invalid credential"))) =
      ("RAWBODY", some GoErr.needRefreshAccessToken) :=
  ((responseFilter_classification
      (HTTPResponse.mk 200 "200 OK" "RAWBODY"
        (some (ErrorEnvelope.mk 40001 "invalid credential")))).2
    (ErrorEnvelope.mk 40001 "invalid credential") rfl rfl).2.1 (Or.inl rfl)

/-- C7: when the first cache fetch returns a non-empty token, `GetAccessToken`
returns that fetch result immediately with a bare fetch trace: the refresh
lock is never acquired and the WX server is never invoked. -/
theorem getAccessToken_fast_path (env : TokenEnv) (h : (env.fetch 0).1 ≠ "") :
    GetAccessToken env = (env.fetch 0, [TokenEvent.fetch]) ∧
    TokenEvent.lockAcquire ∉ (GetAccessToken env).2 ∧
    TokenEvent.refreshWXServer ∉ (GetAccessToken env).2 := by
  have he : GetAccessToken env = (env.fetch 0, [TokenEvent.fetch]) := by
    simp [GetAccessToken, h]
  refine ⟨he, ?_, ?_⟩ <;> rw [he] <;> simp

/-- Witness for C7: a cache that already holds `"CACHED"`. -/
theorem getAccessToken_fast_path_witness :
    GetAccessToken (TokenEnv.mk (fun _ => ("CACHED", none)) ("R", 7200, none) none) =
      (("CACHED", none), [TokenEvent.fetch]) ∧
    TokenEvent.lockAcquire ∉
      (GetAccessToken (TokenEnv.mk (fun _ => ("CACHED", none)) ("R", 7200, none) none)).2 ∧
    TokenEvent.refreshWXServer ∉
      (GetAccessToken (TokenEnv.mk (fun _ => ("CACHED", none)) ("R", 7200, none) none)).2 :=
  getAccessToken_fast_path
    (TokenEnv.mk (fun _ => ("CACHED", none)) ("R", 7200, none) none) (by decide)

/-- C6: on a successful refresh, the value saved to the cache by
`GetAccessToken` and by `NoticeRefreshAccessToken` carries TTL
`⌊0.9 × expiresIn⌋` seconds — the only save event in either trace is
`save tok (9 * expiresIn / 10)`; in particular `expires_in = 7200` yields a
TTL of 6480 seconds, never the raw 7200. -/
theorem save_ttl_shrunk (env : TokenEnv) (tok : String) (expiresIn : Nat)
    (hr : env.refreshWXServer = (tok, expiresIn, none))
    (h0 : (env.fetch 0).1 = "") (h1 : (env.fetch 1).1 = "") :
    (GetAccessToken env).2.filter TokenEvent.isSave =
      [TokenEvent.save tok (shrinkExpiresIn expiresIn)] ∧
    (NoticeRefreshAccessToken env).2.filter TokenEvent.isSave =
      [TokenEvent.save tok (shrinkExpiresIn expiresIn)] ∧
    shrinkExpiresIn expiresIn = 9 * expiresIn / 10 ∧
    shrinkExpiresIn 7200 = 6480 ∧ shrinkExpiresIn 7200 ≠ 7200 := by
  have hg : GetAccessToken env =
      ((tok, none),
        [TokenEvent.fetch, TokenEvent.lockAcquire, TokenEvent.fetch,
          TokenEvent.refreshWXServer,
          TokenEvent.save tok (shrinkExpiresIn expiresIn),
          TokenEvent.lockRelease]) := by
    simp [GetAccessToken, h0, h1, hr]
  have hn : NoticeRefreshAccessToken env =
      ((tok, none),
        [TokenEvent.lockAcquire, TokenEvent.refreshWXServer,
          TokenEvent.save tok (shrinkExpiresIn expiresIn),
          TokenEvent.lockRelease]) := by
    simp [NoticeRefreshAccessToken, hr]
  refine ⟨?_, ?_, rfl, rfl, by decide⟩
  · rw [hg]; rfl
  · rw [hn]; rfl

/-- Witness for C6: empty cache, issuer answers `("FRESH", 7200)`. -/
theorem save_ttl_shrunk_witness :
    (GetAccessToken (TokenEnv.mk (fun _ => ("", none)) ("FRESH", 7200, none) none)).2.filter
        TokenEvent.isSave = [TokenEvent.save "FRESH" (shrinkExpiresIn 7200)] ∧
    (NoticeRefreshAccessToken
        (TokenEnv.mk (fun _ => ("", none)) ("FRESH", 7200, none) none)).2.filter
        TokenEvent.isSave = [TokenEvent.save "FRESH" (shrinkExpiresIn 7200)] ∧
    shrinkExpiresIn 7200 = 9 * 7200 / 10 ∧
    shrinkExpiresIn 7200 = 6480 ∧ shrinkExpiresIn 7200 ≠ 7200 :=
  save_ttl_shrunk (TokenEnv.mk (fun _ => ("", none)) ("FRESH", 7200, none) none)
    "FRESH" 7200 rfl rfl rfl

/-- C10: when the refresh succeeds, the `Cache.Save` outcome is discarded:
both `GetAccessToken` (on the miss path) and `NoticeRefreshAccessToken`
return the fresh token with a nil error, and behave identically for every
possible save outcome, so the caller cannot observe a save failure. -/
theorem save_error_discarded (f : Nat → String × Option GoErr)
    (r : String × Nat × Option GoErr) (tok : String) (expiresIn : Nat)
    (se se2 : Option GoErr)
    (hr : r = (tok, expiresIn, none)) (h0 : (f 0).1 = "") (h1 : (f 1).1 = "") :
    (GetAccessToken (TokenEnv.mk f r se)).1 = (tok, none) ∧
    (NoticeRefreshAccessToken (TokenEnv.mk f r se)).1 = (tok, none) ∧
    GetAccessToken (TokenEnv.mk f r se) = GetAccessToken (TokenEnv.mk f r se2) ∧
    NoticeRefreshAccessToken (TokenEnv.mk f r se) =
      NoticeRefreshAccessToken (TokenEnv.mk f r se2) := by
  subst hr
  refine ⟨?_, ?_, rfl, rfl⟩
  · simp [GetAccessToken, h0, h1]
  · simp [NoticeRefreshAccessToken]

/-- Witness for C10: empty cache, issuer answers `("T", 7200)`, save fails
with a message error, caller still sees `("T", none)`. -/
theorem save_error_discarded_witness :
    (GetAccessToken (TokenEnv.mk (fun _ => ("", none)) ("T", 7200, none)
        (some (GoErr.message "save failed")))).1 = ("T", none) ∧
    (NoticeRefreshAccessToken (TokenEnv.mk (fun _ => ("", none)) ("T", 7200, none)
        (some (GoErr.message "save failed")))).1 = ("T", none) ∧
    GetAccessToken (TokenEnv.mk (fun _ => ("", none)) ("T", 7200, none)
        (some (GoErr.message "save failed"))) =
      GetAccessToken (TokenEnv.mk (fun _ => ("", none)) ("T", 7200, none) none) ∧
    NoticeRefreshAccessToken (TokenEnv.mk (fun _ => ("", none)) ("T", 7200, none)
        (some (GoErr.message "save failed"))) =
      NoticeRefreshAccessToken (TokenEnv.mk (fun _ => ("", none)) ("T", 7200, none) none) :=
  save_error_discarded (fun _ => ("", none)) ("T", 7200, none) "T" 7200
    (some (GoErr.message "save failed")) none rfl rfl rfl

/-- C8: `NoticeRefreshAccessToken` never consults the cache and always
refreshes: its trace contains no fetch event and exactly one WX-server
refresh; on a successful refresh it saves (overwrites) the fresh token with
the shrunk TTL and returns it; and it behaves identically for every
cache-fetch oracle. -/
theorem notice_force_refresh (env : TokenEnv) (f : Nat → String × Option GoErr) :
    TokenEvent.fetch ∉ (NoticeRefreshAccessToken env).2 ∧
    (NoticeRefreshAccessToken env).2.count TokenEvent.refreshWXServer = 1 ∧
    (∀ tok expiresIn, env.refreshWXServer = (tok, expiresIn, none) →
      TokenEvent.save tok (shrinkExpiresIn expiresIn) ∈
        (NoticeRefreshAccessToken env).2 ∧
      (NoticeRefreshAccessToken env).1 = (tok, none)) ∧
    NoticeRefreshAccessToken (TokenEnv.mk f env.refreshWXServer env.saveResult) =
      NoticeRefreshAccessToken env := by
  rcases henv : env.refreshWXServer with ⟨tok0, exp0, e0⟩
  have hproj : (TokenEnv.mk f env.refreshWXServer env.saveResult).refreshWXServer =
      env.refreshWXServer := rfl
  rcases e0 with _ | e0 <;>
    refine ⟨?_, ?_, ?_, ?_⟩ <;>
      simp_all [NoticeRefreshAccessToken, List.count_cons]

/-- Witness for C8: issuer answers `("T2", 7200)`, cache oracle irrelevant. -/
theorem notice_force_refresh_witness :
    TokenEvent.fetch ∉
      (NoticeRefreshAccessToken
        (TokenEnv.mk (fun _ => ("STALE", none)) ("T2", 7200, none) none)).2 ∧
    (NoticeRefreshAccessToken
        (TokenEnv.mk (fun _ => ("STALE", none)) ("T2", 7200, none) none)).2.count
      TokenEvent.refreshWXServer = 1 ∧
    (∀ tok expiresIn,
      (TokenEnv.mk (fun _ => ("STALE", none)) ("T2", 7200, none) none).refreshWXServer =
        (tok, expiresIn, none) →
      TokenEvent.save tok (shrinkExpiresIn expiresIn) ∈
        (NoticeRefreshAccessToken
          (TokenEnv.mk (fun _ => ("STALE", none)) ("T2", 7200, none) none)).2 ∧
      (NoticeRefreshAccessToken
          (TokenEnv.mk (fun _ => ("STALE", none)) ("T2", 7200, none) none)).1 =
        (tok, none)) ∧
    NoticeRefreshAccessToken
        (TokenEnv.mk (fun _ => ("", none)) ("T2", 7200, none) none) =
      NoticeRefreshAccessToken
        (TokenEnv.mk (fun _ => ("STALE", none)) ("T2", 7200, none) none) :=
  notice_force_refresh
    (TokenEnv.mk (fun _ => ("STALE", none)) ("T2", 7200, none) none)
    (fun _ => ("", none))

/-- C1, behaviour of the code at the failing input: after a first response
with errcode 40001, the retried GET goes to
`/cgi-bin/menu/get?access_token=OLD&access_token=NEW` — the URL carries two
access_token parameters and the stale token is still present, because the
second `applyAccessToken` is applied to the reassigned `uri` that already
holds the first token, not to the original request path and parameters. -/
theorem httpGet_retry_url_keeps_stale_token :
    HTTPGet envC1 "/cgi-bin/menu/get" =
      (("OKBODY", none),
        [ClientEvent.get (WXServerUrl ++ "/cgi-bin/menu/get?access_token=OLD"),
          ClientEvent.refreshCall,
          ClientEvent.get
            (WXServerUrl ++ "/cgi-bin/menu/get?access_token=OLD&access_token=NEW")]) := by
  decide

/-- C5, behaviour of the code at the failing input: when the forced refresh
fails, the caller receives the first response body together with the
`NeedRefreshAccessTokenError` sentinel — not the refresh failure.  The
`_, err := ...` line in the retry block declares a fresh `err` that shadows
the named result, so the naked `return` yields the outer `(resp, err)`
pair, replacing the refresh error. -/
theorem httpGet_refresh_failure_error_replaced :
    (HTTPGet envC5 "/cgi-bin/user/get").1 =
      ("ERRBODY1", some GoErr.needRefreshAccessToken) ∧
    envC5.refreshHandler.2 = some (GoErr.message "refresh failed") ∧
    some (GoErr.message "refresh failed") ≠
      (some GoErr.needRefreshAccessToken : Option GoErr) := by
  decide

/-- C2: every `HTTPGet`/`HTTPPost` call performs at most one forced refresh
and at most two platform requests; and whenever the first response is
classified credential-invalid and the refresh, the token re-application and
the second transport succeed, exactly one refresh and exactly two requests
happen and the filtered second response is returned unconditionally — a
second credential-invalid response is returned as that failure with no third
request. -/
theorem http_retry_once (env : ClientEnv) (uri payload contentType : String) :
    ((HTTPGet env uri).2.count ClientEvent.refreshCall ≤ 1 ∧
      ((HTTPGet env uri).2.filter ClientEvent.isRequest).length ≤ 2 ∧
      (HTTPPost env uri payload contentType).2.count ClientEvent.refreshCall ≤ 1 ∧
      ((HTTPPost env uri payload contentType).2.filter
        ClientEvent.isRequest).length ≤ 2) ∧
    (∀ uri1 uri2 r1 r2,
      applyAccessToken (env.getTokenHandler 0) uri = (uri1, none) →
      env.send 0 = Except.ok r1 →
      (responseFilter r1).2 = some GoErr.needRefreshAccessToken →
      env.refreshHandler.2 = none →
      applyAccessToken (env.getTokenHandler 1) uri1 = (uri2, none) →
      env.send 1 = Except.ok r2 →
      ((HTTPGet env uri).1 = responseFilter r2 ∧
        (HTTPGet env uri).2.count ClientEvent.refreshCall = 1 ∧
        ((HTTPGet env uri).2.filter ClientEvent.isRequest).length = 2 ∧
        (HTTPPost env uri payload contentType).1 = responseFilter r2 ∧
        (HTTPPost env uri payload contentType).2.count ClientEvent.refreshCall = 1 ∧
        ((HTTPPost env uri payload contentType).2.filter
          ClientEvent.isRequest).length = 2)) := by
  constructor
  · refine ⟨?_, ?_, ?_, ?_⟩ <;>
      · first
        | unfold HTTPGet
        | unfold HTTPPost
        repeat' split
        all_goals try simp [List.count_cons, ClientEvent.isRequest]
        all_goals split_ifs <;> simp [List.count_cons, ClientEvent.isRequest]
  · intro uri1 uri2 r1 r2 h0 hs0 hf1 hr h1 hs1
    rcases henv : env.refreshHandler with ⟨rt, re⟩
    rw [henv] at hr
    simp only at hr
    subst hr
    have hG : HTTPGet env uri =
        (responseFilter r2,
          [ClientEvent.get (WXServerUrl ++ uri1), ClientEvent.refreshCall,
            ClientEvent.get (WXServerUrl ++ uri2)]) := by
      simp [HTTPGet, h0, hs0, hf1, henv, h1, hs1]
    have hP : HTTPPost env uri payload contentType =
        (responseFilter r2,
          [ClientEvent.post (WXServerUrl ++ uri1) payload contentType,
            ClientEvent.refreshCall,
            ClientEvent.post (WXServerUrl ++ uri2) "" contentType]) := by
      simp [HTTPPost, h0, hs0, hf1, henv, h1, hs1]
    rw [hG, hP]
    simp [List.count_cons, ClientEvent.isRequest]

/-- Witness for C2: with a second credential-invalid response the call
returns that second failure, after exactly one refresh and two requests. -/
theorem http_retry_once_witness :
    (HTTPGet envC2 "/a").1 = responseFilter respC2b ∧
    (HTTPGet envC2 "/a").2.count ClientEvent.refreshCall = 1 ∧
    ((HTTPGet envC2 "/a").2.filter ClientEvent.isRequest).length = 2 ∧
    (HTTPPost envC2 "/a" "PAYLOAD" "application/json").1 = responseFilter respC2b ∧
    (HTTPPost envC2 "/a" "PAYLOAD" "application/json").2.count
      ClientEvent.refreshCall = 1 ∧
    ((HTTPPost envC2 "/a" "PAYLOAD" "application/json").2.filter
      ClientEvent.isRequest).length = 2 :=
  (http_retry_once envC2 "/a" "PAYLOAD" "application/json").2
    "/a?access_token=T1" "/a?access_token=T1&access_token=T1" respC2a respC2b
    rfl rfl rfl rfl rfl rfl

/-- C9: the retried POST reuses the same, already-consumed payload reader:
on the retry path the trace is exactly a first POST carrying the full
payload, the forced refresh, and a second POST whose body bytes are the
empty remainder of the reader — not a fresh copy of the payload. -/
theorem httpPost_retry_body_consumed (env : ClientEnv)
    (uri payload contentType uri1 uri2 : String) (r1 r2 : HTTPResponse)
    (h0 : applyAccessToken (env.getTokenHandler 0) uri = (uri1, none))
    (hs0 : env.send 0 = Except.ok r1)
    (hf1 : (responseFilter r1).2 = some GoErr.needRefreshAccessToken)
    (hr : env.refreshHandler.2 = none)
    (h1 : applyAccessToken (env.getTokenHandler 1) uri1 = (uri2, none))
    (hs1 : env.send 1 = Except.ok r2) :
    (HTTPPost env uri payload contentType).2 =
      [ClientEvent.post (WXServerUrl ++ uri1) payload contentType,
        ClientEvent.refreshCall,
        ClientEvent.post (WXServerUrl ++ uri2) "" contentType] := by
  rcases henv : env.refreshHandler with ⟨rt, re⟩
  rw [henv] at hr
  simp only at hr
  subst hr
  simp [HTTPPost, h0, hs0, hf1, henv, h1, hs1]

/-- Witness for C9: the second POST sends `""`, not `"PAYLOAD"` again. -/
theorem httpPost_retry_body_consumed_witness :
    (HTTPPost envC9 "/a" "PAYLOAD" "application/json").2 =
      [ClientEvent.post (WXServerUrl ++ "/a?access_token=T1") "PAYLOAD"
          "application/json",
        ClientEvent.refreshCall,
        ClientEvent.post (WXServerUrl ++ "/a?access_token=T1&access_token=T1") ""
          "application/json"] :=
  httpPost_retry_body_consumed envC9 "/a" "PAYLOAD" "application/json"
    "/a?access_token=T1" "/a?access_token=T1&access_token=T1"
    (HTTPResponse.mk 200 "200 OK" "E1" (some (ErrorEnvelope.mk 40001 "bad")))
    (HTTPResponse.mk 200 "200 OK" "OK" (some (ErrorEnvelope.mk 0 "")))
    rfl rfl rfl rfl rfl rfl

/-- Two lock-holding threads coincide. -/
theorem lock_unique (issuer : Nat → String) {n : Nat} {s : SysState n}
    (inv : SysInv issuer s) {i j : Fin n}
    (hi : holdsLock (s.pc i)) (hj : holdsLock (s.pc j)) : i = j := by
  have h1 := inv.holder_of_state i hi
  have h2 := inv.holder_of_state j hj
  rw [h1] at h2
  exact Option.some.inj h2

/-- While some thread is between the failed re-fetch and the WX-server call,
no refresh has happened yet. -/
theorem refreshCount_zero_of_refreshing (issuer : Nat → String) {n : Nat}
    {s : SysState n} (inv : SysInv issuer s) (i : Fin n)
    (h : s.pc i = ThreadPc.refreshing) : s.refreshCount = 0 := by
  rcases Nat.le_one_iff_eq_zero_or_eq_one.mp inv.count_le with h0 | h1
  · exact h0
  · exfalso
    rcases inv.count_one h1 with hc | ⟨j, t, hj⟩
    · exact hc (inv.cache_none_of_active i (Or.inl h))
    · have hij : i = j := lock_unique issuer inv (Or.inr (Or.inl h))
        (Or.inr (Or.inr ⟨t, hj⟩))
      rw [← hij, h] at hj
      exact ThreadPc.noConfusion hj

/-- The invariant holds initially. -/
theorem sysInv_init (issuer : Nat → String) (n : Nat) :
    SysInv issuer (initState n) := by
  refine ⟨?_, ?_, ?_, ?_, ?_, ?_, ?_⟩ <;> simp [initState, holdsLock]

/-- The invariant is preserved by every step. -/
theorem sysInv_step (issuer : Nat → String) {n : Nat} {s s2 : SysState n}
    (inv : SysInv issuer s) (st : SysStep issuer s s2) : SysInv issuer s2 := by
  cases st with
  | fetchHit i t hpc hc =>
    refine ⟨?_, ?_, ?_, ?_, ?_, inv.count_le, ?_⟩
    · intro j hj
      simp only at hj ⊢
      rcases eq_or_ne j i with rfl | hne
      · rw [Function.update_same] at hj
        exact absurd hj (by simp [holdsLock])
      · rw [Function.update_noteq hne] at hj
        exact inv.holder_of_state j hj
    · intro j hj
      simp only at hj ⊢
      rcases eq_or_ne j i with rfl | hne
      · rw [Function.update_same] at hj
        rcases hj with hj | ⟨u, hj⟩ <;> exact ThreadPc.noConfusion hj
      · rw [Function.update_noteq hne] at hj
        exact inv.cache_none_of_active j hj
    · exact inv.cache_val
    · intro j u hj
      simp only at hj
      rcases eq_or_ne j i with rfl | hne
      · rw [Function.update_same] at hj
        exact ThreadPc.noConfusion hj
      · rw [Function.update_noteq hne] at hj
        exact inv.saving_val j u hj
    · intro j u hj
      simp only at hj
      rcases eq_or_ne j i with rfl | hne
      · rw [Function.update_same] at hj
        obtain rfl : t = u := ThreadPc.done.inj hj
        exact inv.cache_val t hc
      · rw [Function.update_noteq hne] at hj
        exact inv.done_val j u hj
    · intro h1
      rcases inv.count_one h1 with hcn | ⟨j, u, hj⟩
      · exact Or.inl hcn
      · refine Or.inr ⟨j, u, ?_⟩
        simp only
        have hne : j ≠ i := by
          intro hji
          rw [hji, hpc] at hj
          exact ThreadPc.noConfusion hj
        rw [Function.update_noteq hne]
        exact hj
  | fetchMiss i hpc hc =>
    refine ⟨?_, ?_, ?_, ?_, ?_, inv.count_le, ?_⟩
    · intro j hj
      simp only at hj ⊢
      rcases eq_or_ne j i with rfl | hne
      · rw [Function.update_same] at hj
        exact absurd hj (by simp [holdsLock])
      · rw [Function.update_noteq hne] at hj
        exact inv.holder_of_state j hj
    · intro j hj
      simp only
      exact hc
    · intro u hu
      simp only at hu
      rw [hc] at hu
      exact Option.noConfusion hu
    · intro j u hj
      simp only at hj
      rcases eq_or_ne j i with rfl | hne
      · rw [Function.update_same] at hj
        exact ThreadPc.noConfusion hj
      · rw [Function.update_noteq hne] at hj
        exact inv.saving_val j u hj
    · intro j u hj
      simp only at hj
      rcases eq_or_ne j i with rfl | hne
      · rw [Function.update_same] at hj
        exact ThreadPc.noConfusion hj
      · rw [Function.update_noteq hne] at hj
        exact inv.done_val j u hj
    · intro h1
      rcases inv.count_one h1 with hcn | ⟨j, u, hj⟩
      · exact Or.inl hcn
      · refine Or.inr ⟨j, u, ?_⟩
        simp only
        have hne : j ≠ i := by
          intro hji
          rw [hji, hpc] at hj
          exact ThreadPc.noConfusion hj
        rw [Function.update_noteq hne]
        exact hj
  | acquire i hpc hl =>
    refine ⟨?_, ?_, ?_, ?_, ?_, inv.count_le, ?_⟩
    · intro j hj
      simp only at hj ⊢
      rcases eq_or_ne j i with rfl | hne
      · rfl
      · rw [Function.update_noteq hne] at hj
        have := inv.holder_of_state j hj
        rw [hl] at this
        exact Option.noConfusion this
    · intro j hj
      simp only at hj ⊢
      rcases eq_or_ne j i with rfl | hne
      · rw [Function.update_same] at hj
        rcases hj with hj | ⟨u, hj⟩ <;> exact ThreadPc.noConfusion hj
      · rw [Function.update_noteq hne] at hj
        exact inv.cache_none_of_active j hj
    · exact inv.cache_val
    · intro j u hj
      simp only at hj
      rcases eq_or_ne j i with rfl | hne
      · rw [Function.update_same] at hj
        exact ThreadPc.noConfusion hj
      · rw [Function.update_noteq hne] at hj
        exact inv.saving_val j u hj
    · intro j u hj
      simp only at hj
      rcases eq_or_ne j i with rfl | hne
      · rw [Function.update_same] at hj
        exact ThreadPc.noConfusion hj
      · rw [Function.update_noteq hne] at hj
        exact inv.done_val j u hj
    · intro h1
      rcases inv.count_one h1 with hcn | ⟨j, u, hj⟩
      · exact Or.inl hcn
      · refine Or.inr ⟨j, u, ?_⟩
        simp only
        have hne : j ≠ i := by
          intro hji
          rw [hji, hpc] at hj
          exact ThreadPc.noConfusion hj
        rw [Function.update_noteq hne]
        exact hj
  | refetchHit i t hpc hc =>
    refine ⟨?_, ?_, ?_, ?_, ?_, inv.count_le, ?_⟩
    · intro j hj
      simp only at hj ⊢
      rcases eq_or_ne j i with rfl | hne
      · rw [Function.update_same] at hj
        exact absurd hj (by simp [holdsLock])
      · rw [Function.update_noteq hne] at hj
        exact absurd (lock_unique issuer inv hj (Or.inl hpc)) hne
    · intro j hj
      simp only at hj ⊢
      rcases eq_or_ne j i with rfl | hne
      · rw [Function.update_same] at hj
        rcases hj with hj | ⟨u, hj⟩ <;> exact ThreadPc.noConfusion hj
      · rw [Function.update_noteq hne] at hj
        exact inv.cache_none_of_active j hj
    · exact inv.cache_val
    · intro j u hj
      simp only at hj
      rcases eq_or_ne j i with rfl | hne
      · rw [Function.update_same] at hj
        exact ThreadPc.noConfusion hj
      · rw [Function.update_noteq hne] at hj
        exact inv.saving_val j u hj
    · intro j u hj
      simp only at hj
      rcases eq_or_ne j i with rfl | hne
      · rw [Function.update_same] at hj
        obtain rfl : t = u := ThreadPc.done.inj hj
        exact inv.cache_val t hc
      · rw [Function.update_noteq hne] at hj
        exact inv.done_val j u hj
    · intro h1
      refine Or.inl ?_
      simp only
      rw [hc]
      exact Option.noConfusion
  | refetchMiss i hpc hc =>
    refine ⟨?_, ?_, ?_, ?_, ?_, inv.count_le, ?_⟩
    · intro j hj
      simp only at hj ⊢
      rcases eq_or_ne j i with rfl | hne
      · exact inv.holder_of_state j (Or.inl hpc)
      · rw [Function.update_noteq hne] at hj
        exact inv.holder_of_state j hj
    · intro j hj
      simp only
      exact hc
    · intro u hu
      simp only at hu
      rw [hc] at hu
      exact Option.noConfusion hu
    · intro j u hj
      simp only at hj
      rcases eq_or_ne j i with rfl | hne
      · rw [Function.update_same] at hj
        exact ThreadPc.noConfusion hj
      · rw [Function.update_noteq hne] at hj
        exact inv.saving_val j u hj
    · intro j u hj
      simp only at hj
      rcases eq_or_ne j i with rfl | hne
      · rw [Function.update_same] at hj
        exact ThreadPc.noConfusion hj
      · rw [Function.update_noteq hne] at hj
        exact inv.done_val j u hj
    · intro h1
      rcases inv.count_one h1 with hcn | ⟨j, u, hj⟩
      · exact absurd hc hcn
      · refine Or.inr ⟨j, u, ?_⟩
        simp only
        have hne : j ≠ i := by
          intro hji
          rw [hji, hpc] at hj
          exact ThreadPc.noConfusion hj
        rw [Function.update_noteq hne]
        exact hj
  | refreshWX i hpc =>
    have h0 : s.refreshCount = 0 := refreshCount_zero_of_refreshing issuer inv i hpc
    have hcache : s.cache = none := inv.cache_none_of_active i (Or.inl hpc)
    refine ⟨?_, ?_, ?_, ?_, ?_, ?_, ?_⟩
    · intro j hj
      simp only at hj ⊢
      rcases eq_or_ne j i with rfl | hne
      · exact inv.holder_of_state j (Or.inr (Or.inl hpc))
      · rw [Function.update_noteq hne] at hj
        exact inv.holder_of_state j hj
    · intro j hj
      simp only
      exact hcache
    · intro u hu
      simp only at hu
      rw [hcache] at hu
      exact Option.noConfusion hu
    · intro j u hj
      simp only at hj ⊢
      rcases eq_or_ne j i with rfl | hne
      · rw [Function.update_same] at hj
        obtain rfl : issuer s.refreshCount = u := ThreadPc.saving.inj hj
        rw [h0]
        exact ⟨rfl, rfl⟩
      · rw [Function.update_noteq hne] at hj
        have := (inv.saving_val j u hj).2
        rw [h0] at this
        exact Nat.noConfusion this
    · intro j u hj
      simp only at hj ⊢
      rcases eq_or_ne j i with rfl | hne
      · rw [Function.update_same] at hj
        exact ThreadPc.noConfusion hj
      · rw [Function.update_noteq hne] at hj
        have := (inv.done_val j u hj).2
        rw [h0] at this
        exact Nat.noConfusion this
    · simp only
      rw [h0]
    · intro h1
      refine Or.inr ⟨i, issuer s.refreshCount, ?_⟩
      simp only
      rw [Function.update_same]
  | saveRelease i t hpc =>
    have hsv := inv.saving_val i t hpc
    refine ⟨?_, ?_, ?_, ?_, ?_, inv.count_le, ?_⟩
    · intro j hj
      simp only at hj ⊢
      rcases eq_or_ne j i with rfl | hne
      · rw [Function.update_same] at hj
        exact absurd hj (by simp [holdsLock])
      · rw [Function.update_noteq hne] at hj
        exact absurd (lock_unique issuer inv hj (Or.inr (Or.inr ⟨t, hpc⟩))) hne
    · intro j hj
      simp only at hj ⊢
      rcases eq_or_ne j i with rfl | hne
      · rw [Function.update_same] at hj
        rcases hj with hj | ⟨u, hj⟩ <;> exact ThreadPc.noConfusion hj
      · rw [Function.update_noteq hne] at hj
        have hij := lock_unique issuer inv
          (by
            rcases hj with hj | ⟨u, hj⟩
            · exact Or.inr (Or.inl hj)
            · exact Or.inr (Or.inr ⟨u, hj⟩))
          (Or.inr (Or.inr ⟨t, hpc⟩))
        exact absurd hij hne
    · intro u hu
      simp only at hu
      obtain rfl : t = u := Option.some.inj hu
      exact hsv
    · intro j u hj
      simp only at hj ⊢
      rcases eq_or_ne j i with rfl | hne
      · rw [Function.update_same] at hj
        exact ThreadPc.noConfusion hj
      · rw [Function.update_noteq hne] at hj
        exact inv.saving_val j u hj
    · intro j u hj
      simp only at hj ⊢
      rcases eq_or_ne j i with rfl | hne
      · rw [Function.update_same] at hj
        obtain rfl : t = u := ThreadPc.done.inj hj
        exact hsv
      · rw [Function.update_noteq hne] at hj
        exact inv.done_val j u hj
    · intro h1
      refine Or.inl ?_
      simp only
      exact Option.noConfusion

/-- The invariant holds at every reachable state. -/
theorem sysInv_reachable (issuer : Nat → String) {n : Nat} {s : SysState n}
    (h : Relation.ReflTransGen (SysStep issuer) (initState n) s) :
    SysInv issuer s := by
  induction h with
  | refl => exact sysInv_init issuer n
  | tail hreach hstep ih => exact sysInv_step issuer ih hstep

/-- C3: in the interleaving model of `GetAccessToken`, every execution from
an empty cache in which all `n` threads have completed made exactly one
`refreshAccessTokenFromWXServer` call, and every thread returned the same
token — the one minted by that single call. -/
theorem getAccessToken_single_flight (issuer : Nat → String) (n : Nat)
    (s : SysState n)
    (hreach : Relation.ReflTransGen (SysStep issuer) (initState n) s)
    (hn : 0 < n) (hdone : ∀ i : Fin n, ∃ t, s.pc i = ThreadPc.done t) :
    s.refreshCount = 1 ∧ ∀ i : Fin n, s.pc i = ThreadPc.done (issuer 0) := by
  have inv := sysInv_reachable issuer hreach
  obtain ⟨t0, ht0⟩ := hdone ⟨0, hn⟩
  have h0 := inv.done_val ⟨0, hn⟩ t0 ht0
  refine ⟨h0.2, fun i => ?_⟩
  obtain ⟨t, ht⟩ := hdone i
  have h := inv.done_val i t ht
  rw [h.1] at ht
  exact ht

/-- Witness for C3: a concrete completed execution with one thread. -/
theorem getAccessToken_single_flight_witness :
    c3sFinal.refreshCount = 1 ∧
    ∀ i : Fin 1, c3sFinal.pc i = ThreadPc.done "TOKEN" := by
  refine getAccessToken_single_flight (fun _ => "TOKEN") 1 c3sFinal ?_
    (by decide) ?_
  · exact Relation.ReflTransGen.head (SysStep.fetchMiss _ 0 rfl rfl)
      (Relation.ReflTransGen.head (SysStep.acquire _ 0 rfl rfl)
        (Relation.ReflTransGen.head (SysStep.refetchMiss _ 0 rfl rfl)
          (Relation.ReflTransGen.head (SysStep.refreshWX _ 0 rfl)
            (Relation.ReflTransGen.head (SysStep.saveRelease _ 0 "TOKEN" rfl)
              Relation.ReflTransGen.refl))))
  · intro i
    fin_cases i
    exact ⟨"TOKEN", rfl⟩
